import Mathlib

/-!
Verification of the reviewflow quality-metric scripts.

This file gives a shallow embedding of the two core pipelines of the
repository, `scripts/compute_coverage_metrics.py` (coverage statistics from
per-base depth files) and `scripts/make_sensitivity.py` (sensitivity tables
from an alignment TSV), and proves or refutes the frozen claims about them.

Modelling conventions:
* Python floats are modelled by exact rationals (`ℚ`); the one genuinely
  irrational operation, `statistics.pstdev` (a square root), lands in `ℝ`.
* A text file is modelled as the list of its lines (coverage pipeline) or,
  for the tab-separated sensitivity input, as the list of its rows where a
  row is the list of its tab-separated fields (what `csv.reader` with a tab
  delimiter yields per line).
* The Python builtins `float(...)` and `int(...)` are external to the
  repository; the readers take them as parameters `pf : String → Option ℚ`
  and `pz : String → Option ℤ` (`none` models the `ValueError` they raise).
  Concrete instances `litFloat` / `litInt`, sufficient for the witness
  inputs used here, are defined below.
* A raised-and-unhandled Python exception is modelled by `Except.error`;
  since `main` in `make_sensitivity.py` opens its output files only after
  `read_tsv` and `make_summaries` have returned, an `Except.error` outcome
  of the modelled run carries no output files at all.
-/

/-! ### Character-level string helpers

The Lean core string functions (`String.split`, `String.trim`, ...) do not
reduce inside the kernel, so the Python string operations the scripts use
are modelled directly on the character list `String.data`. -/

/-- Python `str.strip()` with no argument: drop whitespace from both ends. -/
def trimChars (cs : List Char) : List Char :=
  ((cs.dropWhile Char.isWhitespace).reverse.dropWhile Char.isWhitespace).reverse

/-- Python `str.strip()` lifted back to `String`. -/
def pyStrip (s : String) : String := String.mk (trimChars s.data)

/-- The whitespace-separated words of a character list (empty runs dropped),
as in Python `str.split()` with no argument. -/
def wsWords (cs : List Char) : List (List Char) :=
  (cs.foldr (fun c acc =>
    if c.isWhitespace then [] :: acc
    else
      match acc with
      | [] => [[c]]
      | w :: ws => (c :: w) :: ws) []).filter (fun w => w ≠ [])

/-- Python `str.split()` with no argument: split on whitespace runs,
discarding empty pieces. -/
def splitWs (s : String) : List String :=
  (wsWords s.data).map (fun w => String.mk w)

/-- Python `s.startswith(c)` for the single-character prefix `#`. -/
def startsWithHash (s : String) : Bool :=
  match s.data with
  | [] => false
  | c :: _ => c = '#'

/-! ### Concrete numeric parsers (stand-ins for the Python builtins)

The reader theorems below hold for every parse function, so the concrete
witness inputs only need a parse function that agrees with the Python
builtins `float(...)` / `int(...)` on the handful of literals those inputs
contain; on each listed string the value is exactly the one `float` /
`int` returns, and on each unlisted string used in a witness (for example
`abc` or `oops`) the builtin raises, which `none` models. -/

/-- The value of the float literal `1e-6`, as an explicit normalized
fraction (the core rational operations `Rat.div`, `Rat.mul`, ... are
irreducible, so `1 / 1000000` would not reduce in witness proofs). -/
def FLOAT_1E_M6 : ℚ := ⟨1, 1000000, by decide, by decide⟩

/-- The value of the float literal `1e-5`, as an explicit normalized
fraction. -/
def FLOAT_1E_M5 : ℚ := ⟨1, 100000, by decide, by decide⟩

/-- The value of the float literal `2.5`, as an explicit normalized
fraction. -/
def FLOAT_2_5 : ℚ := ⟨5, 2, by decide, by decide⟩

/-- The value of the float literal `-1`, as an explicit normalized
fraction. -/
def FLOAT_M1 : ℚ := ⟨-1, 1, by decide, by decide⟩

/-- The Python builtin `float(...)`, tabulated on the numeric literals that
occur in the concrete inputs of this file. -/
def litFloat (s : String) : Option ℚ :=
  if s = "0" then some 0
  else if s = "3" then some 3
  else if s = "5" then some 5
  else if s = "10" then some 10
  else if s = "20" then some 20
  else if s = "35" then some 35
  else if s = "40" then some 40
  else if s = "60" then some 60
  else if s = "100" then some 100
  else if s = "2.5" then some FLOAT_2_5
  else if s = "-1" then some FLOAT_M1
  else if s = "1e-6" then some FLOAT_1E_M6
  else none

/-- The Python builtin `int(...)`, tabulated likewise. -/
def litInt (s : String) : Option ℤ :=
  if s = "100" then some 100
  else if s = "50" then some 50
  else none

/-! ### Coverage pipeline: `compute_coverage_metrics.py` -/

/-- `read_depth_file` (compute_coverage_metrics.py, lines 38-53): strip each
line, skip blank lines, split on whitespace, skip lines with fewer than two
fields, try to parse the second field as a float and skip the line if that
fails, otherwise append the parsed depth. `parse` stands for `float(...)`. -/
def read_depth_file (parse : String → Option ℚ) : List String → List ℚ
  | [] => []
  | line :: rest =>
    if pyStrip line = "" then read_depth_file parse rest
    else
      let parts := splitWs (pyStrip line)
      if parts.length < 2 then read_depth_file parse rest
      else
        match parse (parts.getD 1 "") with
        | none => read_depth_file parse rest
        | some d => d :: read_depth_file parse rest

/-- Spec-side classification of a single coverage line, used to state C5:
blank lines, lines with fewer than two whitespace-separated fields and lines
whose second field does not parse contribute nothing; every other line
contributes exactly its parsed second field. -/
def line_depth_spec (parse : String → Option ℚ) (line : String) : Option ℚ :=
  let parts := splitWs (pyStrip line)
  if parts.length < 2 then none else parse (parts.getD 1 "")

/-- Local `breadth` of `compute_metrics`:
`100.0 * (covered_positions / total_positions)`. -/
def breadth_pct (depths : List ℚ) : ℚ :=
  100 * (((depths.filter (fun d => 0 < d)).length : ℚ) / (depths.length : ℚ))

/-- Local `mean_depth` of `compute_metrics`: `sum(depths) / total_positions`. -/
def mean_depth (depths : List ℚ) : ℚ :=
  depths.sum / (depths.length : ℚ)

/-- `statistics.pvariance`: population variance. -/
def pvariance (l : List ℚ) : ℚ :=
  (l.map (fun x => (x - mean_depth l) ^ 2)).sum / (l.length : ℚ)

/-- `statistics.pstdev`: population standard deviation. -/
noncomputable def pstdev (l : List ℚ) : ℝ :=
  Real.sqrt (pvariance l)

/-- Local `sd` of `compute_metrics`: `pstdev(depths)` if there is more than
one data point, `0.0` otherwise. -/
noncomputable def sd_of (depths : List ℚ) : ℝ :=
  if 1 < depths.length then pstdev depths else 0

/-- Local `evenness` of `compute_metrics`: `0.0` when `mean_depth <= 0`,
otherwise `1.0 - sd / mean_depth` clipped into `[0, 1]`. -/
noncomputable def evenness_of (depths : List ℚ) : ℝ :=
  if mean_depth depths ≤ 0 then 0
  else
    let e : ℝ := 1 - sd_of depths / ((mean_depth depths : ℚ) : ℝ)
    if e < 0 then 0
    else if 1 < e then 1
    else e

/-- `compute_metrics` (compute_coverage_metrics.py, lines 56-75): returns
`(breadth, mean_depth, evenness)`, with the early return `(0.0, 0.0, 0.0)`
on an empty depth list. -/
noncomputable def compute_metrics (depths : List ℚ) : ℚ × ℚ × ℝ :=
  if depths = [] then (0, 0, 0)
  else (breadth_pct depths, mean_depth depths, evenness_of depths)

/-! ### Sensitivity pipeline: `make_sensitivity.py` -/

/-- A parsed row of the input TSV (the dict built in `read_tsv`). -/
structure Hit where
  query : String
  target : String
  evalue : ℚ
  bits : ℚ
  pident : ℚ
  alnlen : ℤ
  qcov : ℚ
  tcov : ℚ
deriving DecidableEq

/-- The message of the `ValueError` raised in `read_tsv` for a row with
fewer than 8 fields. -/
def columns_error_message : String :=
  "Expected at least 8 columns per line: query,target,evalue,bits,pident,alnlen,qcov,tcov"

/-- Python `float(s)`, with the `ValueError` it raises on failure. -/
def toFloatE (pf : String → Option ℚ) (s : String) : Except String ℚ :=
  match pf s with
  | some v => Except.ok v
  | none => Except.error ("could not convert string to float: " ++ s)

/-- Python `int(s)`, with the `ValueError` it raises on failure. -/
def toIntE (pz : String → Option ℤ) (s : String) : Except String ℤ :=
  match pz s with
  | some v => Except.ok v
  | none => Except.error ("invalid literal for int with base 10: " ++ s)

/-- The body of the `read_tsv` loop for one data row: the length check
(`len(r) < 8` raises the structural `ValueError`) followed by the dict
construction, whose value expressions run in source order (`evalue`, `bits`,
`pident`, `alnlen`, `qcov`, `tcov`) and whose first failing conversion
raises. Fields beyond the eighth are never consulted. -/
def parse_row (pf : String → Option ℚ) (pz : String → Option ℤ)
    (r : List String) : Except String Hit :=
  match r with
  | q :: t :: ev :: bs :: pid :: al :: qc :: tc :: _ =>
    match toFloatE pf ev with
    | Except.error e => Except.error e
    | Except.ok evv =>
      match toFloatE pf bs with
      | Except.error e => Except.error e
      | Except.ok bsv =>
        match toFloatE pf pid with
        | Except.error e => Except.error e
        | Except.ok pidv =>
          match toIntE pz al with
          | Except.error e => Except.error e
          | Except.ok alv =>
            match toFloatE pf qc with
            | Except.error e => Except.error e
            | Except.ok qcv =>
              match toFloatE pf tc with
              | Except.error e => Except.error e
              | Except.ok tcv =>
                Except.ok { query := q, target := t, evalue := evv,
                            bits := bsv, pident := pidv, alnlen := alv,
                            qcov := qcv, tcov := tcv }
  | _ => Except.error columns_error_message

/-- `read_tsv` (make_sensitivity.py, lines 40-63): skip empty rows and rows
whose first field starts with `#`, parse every other row, propagating the
first raised `ValueError` (which aborts the whole run). -/
def read_tsv (pf : String → Option ℚ) (pz : String → Option ℤ) :
    List (List String) → Except String (List Hit)
  | [] => Except.ok []
  | r :: rest =>
    match r with
    | [] => read_tsv pf pz rest
    | r0 :: _ =>
      if startsWithHash r0 then read_tsv pf pz rest
      else
        match parse_row pf pz r with
        | Except.error e => Except.error e
        | Except.ok hit =>
          match read_tsv pf pz rest with
          | Except.error e => Except.error e
          | Except.ok hits => Except.ok (hit :: hits)

/-- The per-threshold filter of `make_summaries`:
`r.evalue <= evalue_cutoff and r.bits >= b`. -/
def basicPass (ev b : ℚ) (r : Hit) : Bool :=
  decide (r.evalue ≤ ev) && decide (b ≤ r.bits)

/-- The conservative filter of `make_summaries`:
`r.pident >= cons_pident and r.qcov >= cons_qcov`. -/
def consPass (cp cq : ℚ) (r : Hit) : Bool :=
  decide (cp ≤ r.pident) && decide (cq ≤ r.qcov)

/-- One summary dict appended by `make_summaries` per threshold. -/
structure ThresholdSummary where
  threshold_bits : ℚ
  evalue_cutoff : ℚ
  n_hits_total : ℕ
  n_unique_queries_total : ℕ
  n_hits_conservative : ℕ
  n_unique_queries_conservative : ℕ
deriving DecidableEq

/-- The summary computed by one iteration of the `for b in bits_list` loop
of `make_summaries` (lines 70-85): filter the full row set, count survivors
and distinct queries (`len(set(...))` is the deduplicated length), then the
same on the conservative subset. -/
def summary_for (rows : List Hit) (ev cp cq b : ℚ) : ThresholdSummary :=
  let filtered := rows.filter (basicPass ev b)
  let cons := filtered.filter (consPass cp cq)
  { threshold_bits := b
  , evalue_cutoff := ev
  , n_hits_total := filtered.length
  , n_unique_queries_total := (filtered.map Hit.query).dedup.length
  , n_hits_conservative := cons.length
  , n_unique_queries_conservative := (cons.map Hit.query).dedup.length }

/-- One entry of the `detailed` list of `make_summaries`: the input hit plus
its pass flags; `pass_bits` holds one `(threshold, flag)` pair per declared
threshold, in declared order (the `pass_bits_<b>` dict entries). -/
structure DetailedHitRow where
  hit : Hit
  pass_evalue : Bool
  pass_bits : List (ℚ × Bool)
  pass_conservative : Bool
deriving DecidableEq

/-- The enrichment of one input row performed by the second loop of
`make_summaries` (lines 88-94). -/
def detailed_row (ev cp cq : ℚ) (bl : List ℚ) (r : Hit) : DetailedHitRow :=
  let pe := decide (r.evalue ≤ ev)
  { hit := r
  , pass_evalue := pe
  , pass_bits := bl.map (fun b => (b, decide (b ≤ r.bits) && pe))
  , pass_conservative := pe && consPass cp cq r }

/-- `make_summaries` (make_sensitivity.py, lines 66-96): one summary per
declared threshold, in declared order, and one detailed row per input hit,
in input order. -/
def make_summaries (rows : List Hit) (bl : List ℚ) (ev cp cq : ℚ) :
    List ThresholdSummary × List DetailedHitRow :=
  (bl.map (fun b => summary_for rows ev cp cq b),
   rows.map (fun r => detailed_row ev cp cq bl r))

/-- Header of `Table_Sx_sensitivity.csv` (`write_summaries`, line 100). -/
def summary_header : List String :=
  ["threshold_bits", "evalue_cutoff", "n_hits_total", "n_unique_queries_total",
   "n_hits_conservative", "n_unique_queries_conservative"]

/-- One CSV line of the summary table. -/
def summary_row (s : ThresholdSummary) : List String :=
  [toString s.threshold_bits, toString s.evalue_cutoff, toString s.n_hits_total,
   toString s.n_unique_queries_total, toString s.n_hits_conservative,
   toString s.n_unique_queries_conservative]

/-- `write_summaries` (lines 99-105): header row then one row per summary. -/
def write_summaries (summaries : List ThresholdSummary) : List (List String) :=
  summary_header :: summaries.map summary_row

/-- Header of `Table_Sx_detailed.csv` (`write_detailed`, lines 110-113). -/
def detailed_header (bl : List ℚ) : List String :=
  ["query", "target", "evalue", "bits", "pident", "alnlen", "qcov", "tcov",
   "pass_evalue"] ++ bl.map (fun b => "pass_bits_" ++ toString b)
  ++ ["pass_conservative"]

/-- `write_detailed` (lines 108-119): header row then exactly one row per
detailed entry; `render` stands for the `csv.DictWriter` serialisation of
one entry. -/
def write_detailed (render : DetailedHitRow → List String) (bl : List ℚ)
    (detailed : List DetailedHitRow) : List (List String) :=
  detailed_header bl :: detailed.map render

/-- `main` of make_sensitivity.py (lines 122-135) up to its file writes:
`read_tsv`, then `make_summaries`, then the contents of the two output
files. An unhandled `ValueError` from `read_tsv` aborts before either
output file is opened, so the `Except.error` outcome carries no output. -/
def run_sensitivity (pf : String → Option ℚ) (pz : String → Option ℤ)
    (rows : List (List String)) (bl : List ℚ) (ev cp cq : ℚ)
    (render : DetailedHitRow → List String) :
    Except String (List (List String) × List (List String)) :=
  match read_tsv pf pz rows with
  | Except.error e => Except.error e
  | Except.ok hits =>
    Except.ok (write_summaries (make_summaries hits bl ev cp cq).1,
               write_detailed render bl (make_summaries hits bl ev cp cq).2)

/-- `DEFAULT_BITS` of make_sensitivity.py. -/
def DEFAULT_BITS : List ℚ := [20, 35, 50]

/-- `DEFAULT_EVALUE` of make_sensitivity.py (`1e-5`). -/
def DEFAULT_EVALUE : ℚ := 1 / 100000

/-! ### Concrete inputs used by witnesses and counterexamples -/

/-- The hit of scenario C of the spec:
`q1 t1 1e-6 40 35 100 60 60`. -/
def scenario_hit : Hit :=
  { query := "q1", target := "t1", evalue := FLOAT_1E_M6, bits := 40,
    pident := 35, alnlen := 100, qcov := 60, tcov := 60 }

/-- A well-formed 8-field TSV row (the row of scenario C). -/
def good_row : List String :=
  ["q1", "t1", "1e-6", "40", "35", "100", "60", "60"]

/-- A TSV row with only 7 fields (scenario D). -/
def short_row : List String :=
  ["q1", "t1", "1e-6", "40", "35", "100", "60"]

/-- An 8-field TSV row whose evalue column is not numeric. -/
def badfloat_row : List String :=
  ["q1", "t1", "abc", "40", "35", "100", "60", "60"]

/-- A 9-field TSV row: the row of scenario C with one extra column. -/
def long_row : List String :=
  ["q1", "t1", "1e-6", "40", "35", "100", "60", "60", "extra"]

/-! ### Helper lemmas -/

/-- The clipping step of the evenness computation keeps any real in
`[0, 1]`. -/
lemma clip01_mem (x : ℝ) :
    0 ≤ (if x < 0 then (0 : ℝ) else if 1 < x then 1 else x)
    ∧ (if x < 0 then (0 : ℝ) else if 1 < x then 1 else x) ≤ 1 := by
  by_cases h1 : x < 0
  · simp [h1]
  · by_cases h2 : 1 < x
    · simp [h1, h2]
    · simp only [if_neg h1, if_neg h2]
      exact ⟨le_of_not_lt h1, le_of_not_lt h2⟩

/-- The evenness returned by the metrics engine always lies in `[0, 1]`. -/
lemma evenness_of_mem_Icc (depths : List ℚ) :
    0 ≤ evenness_of depths ∧ evenness_of depths ≤ 1 := by
  by_cases h1 : mean_depth depths ≤ 0
  · simp [evenness_of, h1]
  · simp only [evenness_of, if_neg h1]
    exact clip01_mem _

/-- A singleton sequence with positive depth has evenness exactly 1. -/
lemma evenness_of_singleton (d : ℚ) (hd : 0 < d) : evenness_of [d] = 1 := by
  have h1 : mean_depth [d] = d := by simp [mean_depth]
  have hpos : ¬ (mean_depth [d] ≤ 0) := by rw [h1]; exact not_le.mpr hd
  have hsd : sd_of [d] = 0 := by simp [sd_of]
  simp [evenness_of, hpos, hsd]

/-! ### C1 -/

/-- C1 is false as stated: on the singleton depth sequence `[5]` the metrics
engine returns evenness 1, not 0 (with one data point the code sets sd = 0,
and the mean 5 is positive, so evenness = 1 - 0/5 = 1). -/
theorem C1_counterexample :
    (compute_metrics [(5 : ℚ)]).2.2 = 1 ∧ (compute_metrics [(5 : ℚ)]).2.2 ≠ 0 := by
  have h : (compute_metrics [(5 : ℚ)]).2.2 = 1 := by
    have h1 : mean_depth [(5 : ℚ)] = 5 := by simp [mean_depth]
    have hpos : ¬ (mean_depth [(5 : ℚ)] ≤ 0) := by rw [h1]; norm_num
    have hsd : sd_of [(5 : ℚ)] = 0 := by simp [sd_of]
    simp [compute_metrics, evenness_of, hpos, hsd]
  exact ⟨h, by rw [h]; norm_num⟩

/-- C1 (amended): the metrics engine returns evenness = 0 for every depth
sequence whose mean depth is ≤ 0; a target with zero valid depth lines
yields breadth_pct = 0, mean_depth = 0, evenness = 0 without raising an
error; but a singleton sequence with positive mean yields evenness = 1
(not 0 as the claim states). -/
theorem C1_evenness_degenerate (depths : List ℚ) (hm : mean_depth depths ≤ 0) :
    (compute_metrics depths).2.2 = 0
    ∧ compute_metrics [] = (0, 0, 0)
    ∧ ∀ d : ℚ, 0 < d → (compute_metrics [d]).2.2 = 1 := by
  refine ⟨?_, by simp [compute_metrics], ?_⟩
  · by_cases hd : depths = []
    · subst hd; simp [compute_metrics]
    · simp [compute_metrics, hd, evenness_of, hm]
  · intro d hd
    have hne : ([d] : List ℚ) ≠ [] := by simp
    simp [compute_metrics, hne, evenness_of_singleton d hd]

/-- Witness for C1: the amended theorem applied to the singleton `[0]`,
whose mean is 0. -/
theorem C1_witness :
    mean_depth [(0 : ℚ)] ≤ 0
    ∧ ((compute_metrics [(0 : ℚ)]).2.2 = 0
       ∧ compute_metrics [] = (0, 0, 0)
       ∧ ∀ d : ℚ, 0 < d → (compute_metrics [d]).2.2 = 1) :=
  ⟨by simp [mean_depth], C1_evenness_degenerate [(0 : ℚ)] (by simp [mean_depth])⟩

/-! ### C2 -/

/-- C2 is false as stated: the reader does not reject negative depth values,
and on the sequence `[-1]` the engine returns mean_depth = -1 < 0. -/
theorem C2_counterexample :
    (compute_metrics [(-1 : ℚ)]).2.1 = -1
    ∧ ¬ (0 ≤ (compute_metrics [(-1 : ℚ)]).2.1) := by
  have h : (compute_metrics [(-1 : ℚ)]).2.1 = -1 := by
    simp [compute_metrics, mean_depth]
  exact ⟨h, by rw [h]; norm_num⟩

/-- C2 (amended): for every depth sequence the engine returns
breadth_pct in `[0, 100]` and evenness in `[0, 1]`; mean_depth is
nonnegative whenever all depths are nonnegative (but can be negative when
the sequence contains negative depth values). -/
theorem C2_metric_bounds (depths : List ℚ) :
    0 ≤ (compute_metrics depths).1 ∧ (compute_metrics depths).1 ≤ 100
    ∧ 0 ≤ (compute_metrics depths).2.2 ∧ (compute_metrics depths).2.2 ≤ 1
    ∧ ((∀ d ∈ depths, 0 ≤ d) → 0 ≤ (compute_metrics depths).2.1) := by
  by_cases hd : depths = []
  · subst hd
    refine ⟨le_refl _, ?_, le_refl _, ?_, fun _ => le_refl _⟩ <;> norm_num [compute_metrics]
  · have hlen : (0 : ℚ) < (depths.length : ℚ) := by
      exact_mod_cast List.length_pos.mpr hd
    have hfil : ((depths.filter (fun d => 0 < d)).length : ℚ) ≤ (depths.length : ℚ) := by
      exact_mod_cast List.length_filter_le _ _
    refine ⟨?_, ?_, ?_, ?_, ?_⟩
    · simp only [compute_metrics, if_neg hd, breadth_pct]
      positivity
    · simp only [compute_metrics, if_neg hd, breadth_pct]
      have : ((depths.filter (fun d => 0 < d)).length : ℚ) / (depths.length : ℚ) ≤ 1 :=
        (div_le_one hlen).mpr hfil
      linarith
    · simp only [compute_metrics, if_neg hd]
      exact (evenness_of_mem_Icc depths).1
    · simp only [compute_metrics, if_neg hd]
      exact (evenness_of_mem_Icc depths).2
    · intro hall
      simp only [compute_metrics, if_neg hd, mean_depth]
      exact div_nonneg (List.sum_nonneg hall) (le_of_lt hlen)

/-- Witness for C2: the amended bounds at the singleton `[2]`, a sequence
of nonnegative depths. -/
theorem C2_witness :
    0 ≤ (compute_metrics [(2 : ℚ)]).1 ∧ (compute_metrics [(2 : ℚ)]).1 ≤ 100
    ∧ 0 ≤ (compute_metrics [(2 : ℚ)]).2.2 ∧ (compute_metrics [(2 : ℚ)]).2.2 ≤ 1
    ∧ 0 ≤ (compute_metrics [(2 : ℚ)]).2.1 := by
  obtain ⟨a, b, c, d2, e⟩ := C2_metric_bounds [(2 : ℚ)]
  exact ⟨a, b, c, d2, e (by decide)⟩

/-! ### C5 and C10: the coverage reader -/

/-- Splitting the empty line yields no fields. -/
lemma splitWs_empty : splitWs "" = [] := rfl

/-- The reader loop is exactly a `filterMap` of the per-line
classification: it never fails, malformed lines contribute nothing, every
other line contributes exactly one parsed depth, in order. -/
lemma read_depth_file_eq_filterMap (parse : String → Option ℚ) (lines : List String) :
    read_depth_file parse lines = lines.filterMap (line_depth_spec parse) := by
  induction lines with
  | nil => rfl
  | cons line rest ih =>
    by_cases hb : pyStrip line = ""
    · have hnone : line_depth_spec parse line = none := by
        simp [line_depth_spec, hb, splitWs_empty]
      simp [read_depth_file, hb, List.filterMap_cons, hnone, ih]
    · by_cases hl : (splitWs (pyStrip line)).length < 2
      · have hnone : line_depth_spec parse line = none := by
          simp [line_depth_spec, hl]
        simp [read_depth_file, hb, hl, List.filterMap_cons, hnone, ih]
      · cases hp : parse ((splitWs (pyStrip line))[1]?.getD "") with
        | none =>
          have hnone : line_depth_spec parse line = none := by
            simp [line_depth_spec, hl, hp]
          simp [read_depth_file, hb, hl, hp, List.filterMap_cons, hnone, ih]
        | some d =>
          have hsome : line_depth_spec parse line = some d := by
            simp [line_depth_spec, hl, hp]
          simp [read_depth_file, hb, hl, hp, List.filterMap_cons, hsome, ih]

/-- C5: the coverage reader never raises on malformed content; for every
input, blank lines, lines with fewer than two whitespace-separated fields
and lines whose second field does not parse are silently omitted, and every
other line contributes exactly one depth value (the reader is literally the
`filterMap` of the per-line classification, so it is total). -/
theorem C5_coverage_reader_tolerant (parse : String → Option ℚ) (lines : List String) :
    read_depth_file parse lines = lines.filterMap (line_depth_spec parse) :=
  read_depth_file_eq_filterMap parse lines

/-- Two lines with the same fields after the first are classified
identically. -/
lemma line_depth_spec_congr (parse : String → Option ℚ) {a b : String}
    (h : (splitWs (pyStrip a)).drop 1 = (splitWs (pyStrip b)).drop 1) :
    line_depth_spec parse a = line_depth_spec parse b := by
  have hlen : (splitWs (pyStrip a)).length - 1 = (splitWs (pyStrip b)).length - 1 := by
    rw [← List.length_drop, ← List.length_drop, h]
  by_cases h2 : (splitWs (pyStrip a)).length < 2
  · have h2b : (splitWs (pyStrip b)).length < 2 := by omega
    simp [line_depth_spec, h2, h2b]
  · have h2b : ¬ (splitWs (pyStrip b)).length < 2 := by omega
    have hq : (splitWs (pyStrip a))[1]? = (splitWs (pyStrip b))[1]? := by
      have ha := List.getElem?_drop (splitWs (pyStrip a)) 1 0
      have hb2 := List.getElem?_drop (splitWs (pyStrip b)) 1 0
      rw [h] at ha
      rw [hb2] at ha
      simpa using ha.symm
    simp [line_depth_spec, h2, h2b, hq]

/-- C10: the coverage pipeline never reads the position column; two
depth-file contents whose lines agree on all whitespace-separated fields
after the first (the first field may differ arbitrarily, including
non-numeric values) produce the same depth sequence and hence identical
metrics. -/
theorem C10_first_column_ignored (parse : String → Option ℚ) (f1 f2 : List String)
    (h : List.Forall₂
      (fun a b => (splitWs (pyStrip a)).drop 1 = (splitWs (pyStrip b)).drop 1) f1 f2) :
    read_depth_file parse f1 = read_depth_file parse f2
    ∧ compute_metrics (read_depth_file parse f1)
      = compute_metrics (read_depth_file parse f2) := by
  have hr : read_depth_file parse f1 = read_depth_file parse f2 := by
    rw [read_depth_file_eq_filterMap, read_depth_file_eq_filterMap]
    induction h with
    | nil => rfl
    | cons hab htl ih =>
      simp [List.filterMap_cons, line_depth_spec_congr parse hab, ih]
  exact ⟨hr, by rw [hr]⟩

/-- Witness for C10: two concrete files, position columns `1`/`2` versus
`9`/`oops`, with equal depth columns. -/
theorem C10_witness :
    read_depth_file litFloat ["1 5", "2 2.5"]
      = read_depth_file litFloat ["9 5", "oops 2.5"]
    ∧ compute_metrics (read_depth_file litFloat ["1 5", "2 2.5"])
      = compute_metrics (read_depth_file litFloat ["9 5", "oops 2.5"]) :=
  C10_first_column_ignored litFloat _ _
    (List.Forall₂.cons (by decide) (List.Forall₂.cons (by decide) List.Forall₂.nil))

/-! ### C3, C4 and C9: the sensitivity reader -/

/-- A row with fewer than 8 fields always produces the structural
`ValueError` of `read_tsv`. -/
lemma parse_row_short (pf : String → Option ℚ) (pz : String → Option ℤ)
    (r : List String) (h8 : r.length < 8) :
    parse_row pf pz r = Except.error columns_error_message := by
  cases r with
  | nil => rfl
  | cons a1 r => cases r with
    | nil => rfl
    | cons a2 r => cases r with
      | nil => rfl
      | cons a3 r => cases r with
        | nil => rfl
        | cons a4 r => cases r with
          | nil => rfl
          | cons a5 r => cases r with
            | nil => rfl
            | cons a6 r => cases r with
              | nil => rfl
              | cons a7 r => cases r with
                | nil => rfl
                | cons a8 tl =>
                  simp only [List.length_cons] at h8
                  omega

/-- A `read_tsv` failure propagates unchanged through `main` (modelled by
`run_sensitivity`): the run aborts before either output file is opened. -/
lemma run_sensitivity_of_read_error (pf : String → Option ℚ) (pz : String → Option ℤ)
    (rows : List (List String)) (bl : List ℚ) (ev cp cq : ℚ)
    (render : DetailedHitRow → List String) (e : String)
    (h : read_tsv pf pz rows = Except.error e) :
    run_sensitivity pf pz rows bl ev cp cq render = Except.error e := by
  simp [run_sensitivity, h]

/-- If any non-comment, non-empty row of the input has fewer than 8 fields,
`read_tsv` returns an error. -/
lemma read_tsv_error_of_short (pf : String → Option ℚ) (pz : String → Option ℤ)
    {rows : List (List String)} {r : List String}
    (hr : r ∈ rows) (h8 : r.length < 8) (hne : r ≠ [])
    (hnc : startsWithHash (r.headD "") = false) :
    ∃ e, read_tsv pf pz rows = Except.error e := by
  induction rows with
  | nil => cases hr
  | cons a rest ih =>
    rcases List.mem_cons.mp hr with heq | hmem
    · subst heq
      cases r with
      | nil => exact absurd rfl hne
      | cons r0 rtl =>
        simp only [List.headD_cons] at hnc
        have hp := parse_row_short pf pz (r0 :: rtl) h8
        exact ⟨columns_error_message, by simp [read_tsv, hnc, hp]⟩
    · cases a with
      | nil => simpa [read_tsv] using ih hmem
      | cons a0 atl =>
        by_cases hc : startsWithHash a0
        · simpa [read_tsv, hc] using ih hmem
        · obtain ⟨e, he⟩ := ih hmem
          cases hp : parse_row pf pz (a0 :: atl) with
          | error e2 => exact ⟨e2, by simp [read_tsv, hc, hp]⟩
          | ok hit => exact ⟨e, by simp [read_tsv, hc, hp, he]⟩

/-- C3: a non-comment, non-empty row with fewer than 8 tab-separated fields
makes the sensitivity reader raise the structural `ValueError`, the error
aborts the entire run, and because it propagates as `Except.error` out of
the modelled `main` before either output file is opened, no output CSV is
created. -/
theorem C3_short_row_aborts (pf : String → Option ℚ) (pz : String → Option ℤ)
    (rows : List (List String)) (bl : List ℚ) (ev cp cq : ℚ)
    (render : DetailedHitRow → List String) (r : List String)
    (hr : r ∈ rows) (h8 : r.length < 8) (hne : r ≠ [])
    (hnc : startsWithHash (r.headD "") = false) :
    parse_row pf pz r = Except.error columns_error_message
    ∧ ∃ e, read_tsv pf pz rows = Except.error e
        ∧ run_sensitivity pf pz rows bl ev cp cq render = Except.error e := by
  obtain ⟨e, he⟩ := read_tsv_error_of_short pf pz hr h8 hne hnc
  exact ⟨parse_row_short pf pz r h8, e, he,
    run_sensitivity_of_read_error pf pz rows bl ev cp cq render e he⟩

/-- Witness for C3: scenario D, a 7-field row (here preceded by a valid
row), aborts the run with no output. -/
theorem C3_witness :
    parse_row litFloat litInt short_row = Except.error columns_error_message
    ∧ ∃ e, read_tsv litFloat litInt [good_row, short_row] = Except.error e
        ∧ run_sensitivity litFloat litInt [good_row, short_row] DEFAULT_BITS
            FLOAT_1E_M5 30 50 (fun _ => []) = Except.error e :=
  C3_short_row_aborts litFloat litInt [good_row, short_row] DEFAULT_BITS
    FLOAT_1E_M5 30 50 (fun _ => []) short_row
    (by decide) (by decide) (by decide) (by decide)

/-- C4 is false as stated: the reader's errors identify neither the
offending line number nor the file. Both error paths produce the very same
error value whether the offending row is the first line or the second, so
the error cannot identify the line; and the value contains no file name or
line number at all. -/
theorem C4_counterexample :
    (read_tsv litFloat litInt [short_row] = Except.error columns_error_message
     ∧ read_tsv litFloat litInt [good_row, short_row]
         = Except.error columns_error_message)
    ∧ (read_tsv litFloat litInt [badfloat_row]
         = Except.error "could not convert string to float: abc"
       ∧ read_tsv litFloat litInt [good_row, badfloat_row]
         = Except.error "could not convert string to float: abc") :=
  ⟨⟨rfl, rfl⟩, ⟨rfl, rfl⟩⟩

/-- C4 (amended): every parse error raised by the sensitivity reader
(too-few-fields or a non-numeric value in a numeric column) surfaces to the
caller immediately and unchanged, aborting the run; the error describes the
expected format or the offending value but does not identify the offending
line number or the file. -/
theorem C4_error_propagation (pf : String → Option ℚ) (pz : String → Option ℤ)
    (rows : List (List String)) (bl : List ℚ) (ev cp cq : ℚ)
    (render : DetailedHitRow → List String) (e : String)
    (h : read_tsv pf pz rows = Except.error e) :
    run_sensitivity pf pz rows bl ev cp cq render = Except.error e :=
  run_sensitivity_of_read_error pf pz rows bl ev cp cq render e h

/-- Witness for C4: the non-numeric-evalue row propagates its error out of
the whole run. -/
theorem C4_witness :
    run_sensitivity litFloat litInt [badfloat_row] DEFAULT_BITS FLOAT_1E_M5
      30 50 (fun _ => [])
      = Except.error "could not convert string to float: abc" :=
  C4_error_propagation litFloat litInt [badfloat_row] DEFAULT_BITS FLOAT_1E_M5
    30 50 (fun _ => []) "could not convert string to float: abc" rfl

/-- C9: the sensitivity reader accepts any row with 8 or more fields:
fields beyond the eighth are never consulted (parsing the row equals
parsing its first 8 fields), and when the 8 consumed columns parse, the row
contributes exactly one hit and no error. -/
theorem C9_extra_fields_ignored (pf : String → Option ℚ) (pz : String → Option ℤ)
    (r : List String) (rest : List (List String)) (h8 : 8 ≤ r.length) :
    parse_row pf pz r = parse_row pf pz (r.take 8)
    ∧ ∀ hit, parse_row pf pz r = Except.ok hit →
        startsWithHash (r.headD "") = false →
        read_tsv pf pz (r :: rest)
          = (read_tsv pf pz rest).map (fun hs => hit :: hs) := by
  cases r with
  | nil => simp at h8
  | cons a1 r => cases r with
    | nil => simp at h8
    | cons a2 r => cases r with
      | nil => simp at h8
      | cons a3 r => cases r with
        | nil => simp at h8
        | cons a4 r => cases r with
          | nil => simp at h8
          | cons a5 r => cases r with
            | nil => simp at h8
            | cons a6 r => cases r with
              | nil => simp at h8
              | cons a7 r => cases r with
                | nil => simp at h8
                | cons a8 tl =>
                  refine ⟨rfl, ?_⟩
                  intro hit hok hnc
                  simp only [List.headD_cons] at hnc
                  simp only [read_tsv, hnc, Bool.false_eq_true, if_false, hok]
                  cases read_tsv pf pz rest <;> rfl

/-- Witness for C9: a 9-field row parses exactly like its 8-field prefix
and yields one hit. -/
theorem C9_witness :
    parse_row litFloat litInt long_row = parse_row litFloat litInt (long_row.take 8)
    ∧ read_tsv litFloat litInt [long_row]
        = (read_tsv litFloat litInt []).map (fun hs => scenario_hit :: hs) := by
  obtain ⟨h1, h2⟩ := C9_extra_fields_ignored litFloat litInt long_row [] (by decide)
  exact ⟨h1, h2 scenario_hit rfl (by decide)⟩

/-! ### C6, C7 and C8: the sensitivity metrics engine -/

/-- A stricter bitscore threshold only shrinks the per-threshold filter. -/
lemma basicPass_mono (ev b1 b2 : ℚ) (hle : b1 ≤ b2) (r : Hit) :
    basicPass ev b2 r = true → basicPass ev b1 r = true := by
  simp only [basicPass, Bool.and_eq_true, decide_eq_true_eq]
  exact fun h => ⟨h.1, le_trans hle h.2⟩

/-- A sublist has at most as many distinct elements. -/
lemma dedup_length_mono {α : Type} [DecidableEq α] {l1 l2 : List α}
    (h : List.Sublist l1 l2) : l1.dedup.length ≤ l2.dedup.length := by
  rw [← List.card_toFinset, ← List.card_toFinset]
  refine Finset.card_le_card ?_
  intro a ha
  rw [List.mem_toFinset] at ha ⊢
  exact h.subset ha

/-- C6: raising the bitscore threshold cannot admit more hits. For any two
declared thresholds `b1 < b2` (both summaries genuinely appear in the
summary table), all four counts of the `b2` summary are bounded by the
corresponding counts of the `b1` summary, because each threshold
independently filters the full hit set with the conjunctive predicate
`evalue ≤ cutoff AND bits ≥ b`. -/
theorem C6_threshold_monotone (rows : List Hit) (bl : List ℚ) (ev cp cq b1 b2 : ℚ)
    (h1 : b1 ∈ bl) (h2 : b2 ∈ bl) (hlt : b1 < b2) :
    summary_for rows ev cp cq b1 ∈ (make_summaries rows bl ev cp cq).1
    ∧ summary_for rows ev cp cq b2 ∈ (make_summaries rows bl ev cp cq).1
    ∧ (summary_for rows ev cp cq b2).n_hits_total
        ≤ (summary_for rows ev cp cq b1).n_hits_total
    ∧ (summary_for rows ev cp cq b2).n_unique_queries_total
        ≤ (summary_for rows ev cp cq b1).n_unique_queries_total
    ∧ (summary_for rows ev cp cq b2).n_hits_conservative
        ≤ (summary_for rows ev cp cq b1).n_hits_conservative
    ∧ (summary_for rows ev cp cq b2).n_unique_queries_conservative
        ≤ (summary_for rows ev cp cq b1).n_unique_queries_conservative := by
  have hsub : List.Sublist (rows.filter (basicPass ev b2)) (rows.filter (basicPass ev b1)) :=
    List.monotone_filter_right rows (fun r => basicPass_mono ev b1 b2 (le_of_lt hlt) r)
  have hsubc : List.Sublist ((rows.filter (basicPass ev b2)).filter (consPass cp cq))
      ((rows.filter (basicPass ev b1)).filter (consPass cp cq)) :=
    hsub.filter _
  refine ⟨?_, ?_, ?_, ?_, ?_, ?_⟩
  · simp only [make_summaries, List.mem_map]
    exact ⟨b1, h1, rfl⟩
  · simp only [make_summaries, List.mem_map]
    exact ⟨b2, h2, rfl⟩
  · simpa [summary_for] using hsub.length_le
  · simpa [summary_for] using dedup_length_mono (hsub.map Hit.query)
  · simpa [summary_for] using hsubc.length_le
  · simpa [summary_for] using dedup_length_mono (hsubc.map Hit.query)

/-- Witness for C6: the scenario-C hit with the default thresholds 20 < 35
and the 1e-5 cutoff. -/
theorem C6_witness :
    summary_for [scenario_hit] FLOAT_1E_M5 30 50 20
      ∈ (make_summaries [scenario_hit] DEFAULT_BITS FLOAT_1E_M5 30 50).1
    ∧ summary_for [scenario_hit] FLOAT_1E_M5 30 50 35
      ∈ (make_summaries [scenario_hit] DEFAULT_BITS FLOAT_1E_M5 30 50).1
    ∧ (summary_for [scenario_hit] FLOAT_1E_M5 30 50 35).n_hits_total
        ≤ (summary_for [scenario_hit] FLOAT_1E_M5 30 50 20).n_hits_total
    ∧ (summary_for [scenario_hit] FLOAT_1E_M5 30 50 35).n_unique_queries_total
        ≤ (summary_for [scenario_hit] FLOAT_1E_M5 30 50 20).n_unique_queries_total
    ∧ (summary_for [scenario_hit] FLOAT_1E_M5 30 50 35).n_hits_conservative
        ≤ (summary_for [scenario_hit] FLOAT_1E_M5 30 50 20).n_hits_conservative
    ∧ (summary_for [scenario_hit] FLOAT_1E_M5 30 50 35).n_unique_queries_conservative
        ≤ (summary_for [scenario_hit] FLOAT_1E_M5 30 50 20).n_unique_queries_conservative :=
  C6_threshold_monotone [scenario_hit] DEFAULT_BITS FLOAT_1E_M5 30 50 20 35
    (by decide) (by decide) (by decide)

/-- C7: the detailed-row flags are exactly the declared predicates:
`pass_evalue` iff `evalue ≤ cutoff`; the flag stored for a threshold `b`
iff `bits ≥ b` and the evalue passes; `pass_conservative` iff the evalue
passes and `pident` / `qcov` meet the conservative cutoffs. -/
theorem C7_pass_flags (ev cp cq b : ℚ) (bl : List ℚ) (r : Hit) (f : Bool)
    (hb : (b, f) ∈ (detailed_row ev cp cq bl r).pass_bits) :
    ((detailed_row ev cp cq bl r).pass_evalue = true ↔ r.evalue ≤ ev)
    ∧ (f = true ↔ (b ≤ r.bits ∧ r.evalue ≤ ev))
    ∧ ((detailed_row ev cp cq bl r).pass_conservative = true
        ↔ (r.evalue ≤ ev ∧ cp ≤ r.pident ∧ cq ≤ r.qcov)) := by
  refine ⟨by simp [detailed_row], ?_, ?_⟩
  · simp only [detailed_row, List.mem_map] at hb
    obtain ⟨b2, _, heq⟩ := hb
    obtain ⟨hb2, hf⟩ := Prod.mk.injEq .. ▸ heq
    subst hb2
    rw [← hf]
    simp [Bool.and_eq_true, decide_eq_true_eq]
  · simp [detailed_row, consPass, Bool.and_eq_true, decide_eq_true_eq, and_assoc]

/-- Witness for C7: scenario C — the hit `q1 t1 1e-6 40 35 100 60 60` with
thresholds `[20, 35, 50]` and cutoff `1e-5`; at threshold 50 the stored
flag is false, and the characterizations hold. -/
theorem C7_witness :
    ((50 : ℚ), false) ∈ (detailed_row FLOAT_1E_M5 30 50 DEFAULT_BITS scenario_hit).pass_bits
    ∧ (((detailed_row FLOAT_1E_M5 30 50 DEFAULT_BITS scenario_hit).pass_evalue = true
          ↔ scenario_hit.evalue ≤ FLOAT_1E_M5)
       ∧ (false = true ↔ ((50 : ℚ) ≤ scenario_hit.bits ∧ scenario_hit.evalue ≤ FLOAT_1E_M5))
       ∧ ((detailed_row FLOAT_1E_M5 30 50 DEFAULT_BITS scenario_hit).pass_conservative = true
          ↔ (scenario_hit.evalue ≤ FLOAT_1E_M5 ∧ 30 ≤ scenario_hit.pident
             ∧ 50 ≤ scenario_hit.qcov))) :=
  ⟨by decide,
   C7_pass_flags FLOAT_1E_M5 30 50 50 DEFAULT_BITS scenario_hit false (by decide)⟩

/-- Scenario C evaluated outright: `pass_evalue = true`,
`pass_bits_20 = true`, `pass_bits_35 = true`, `pass_bits_50 = false`,
`pass_conservative = true`. -/
lemma scenarioC_flags :
    (detailed_row FLOAT_1E_M5 30 50 DEFAULT_BITS scenario_hit).pass_evalue = true
    ∧ (detailed_row FLOAT_1E_M5 30 50 DEFAULT_BITS scenario_hit).pass_bits
        = [(20, true), (35, true), (50, false)]
    ∧ (detailed_row FLOAT_1E_M5 30 50 DEFAULT_BITS scenario_hit).pass_conservative = true := by
  refine ⟨by decide, by decide, by decide⟩

/-- C8: the detailed table holds exactly one row per input hit — none
dropped, none duplicated — in original input order (stripping the flags
recovers the input list), and the written CSV has exactly one line per hit
plus the header. -/
theorem C8_one_row_per_hit (rows : List Hit) (bl : List ℚ) (ev cp cq : ℚ)
    (render : DetailedHitRow → List String) :
    (make_summaries rows bl ev cp cq).2.map DetailedHitRow.hit = rows
    ∧ (make_summaries rows bl ev cp cq).2.length = rows.length
    ∧ (write_detailed render bl (make_summaries rows bl ev cp cq).2).length
        = rows.length + 1 := by
  refine ⟨?_, by simp [make_summaries], by simp [write_detailed, make_summaries]⟩
  show (rows.map fun r => detailed_row ev cp cq bl r).map DetailedHitRow.hit = rows
  rw [List.map_map]
  have hid : (DetailedHitRow.hit ∘ fun r => detailed_row ev cp cq bl r) = id := by
    funext r
    rfl
  rw [hid, List.map_id]
